import Mathlib

/-!
# Verification of the chunked video blob store (Express + GridFS backend)

Shallow embedding of the single-file Node/Express server (`server.js`):
the GridFS bucket state, the five route handlers, and the range
arithmetic of the streaming endpoint. Handlers that touch the store also
return a trace of storage effects, so that statements about the order of
validation versus storage interaction can be made.
-/

namespace VideoApp

/-- Constant `CHUNK_SIZE = 10 ** 6` from the `GET /video/:id` handler: the range
serving window. -/
def CHUNK_SIZE : Nat := 10 ^ 6

/-- Constant `chunkSizeBytes: 1048576` passed to `openUploadStream`. -/
def chunkSizeBytes : Nat := 1048576

/-- JS `range.replace(/\D/g, "")`: delete every non-digit character,
keeping the remaining digit characters in order. -/
def stripNonDigits (s : String) : List Char :=
  s.data.filter Char.isDigit

/-- JS `Number` applied to a string of digit characters: the decimal
value of the concatenated digits, with `Number("") = 0`. -/
def numberOfDigits (cs : List Char) : Nat :=
  cs.foldl (fun acc c => acc * 10 + (c.toNat - 48)) 0

/-- Expression `Number(range.replace(/\D/g, ""))`: the start offset the handler
derives from the client Range header. -/
def parseStart (range : String) : Nat :=
  numberOfDigits (stripNonDigits range)

/-- Hexadecimal digit test, for ObjectId well-formedness. -/
def isHexDigit (c : Char) : Bool :=
  c.isDigit || (97 ≤ c.toNat && c.toNat ≤ 102) || (65 ≤ c.toNat && c.toNat ≤ 70)

/-- Model of the `new mongoose.Types.ObjectId(string)` constructor
validation (the external identifier type used by every `/video/:id`
route): it succeeds exactly on 24-character hexadecimal strings and
throws otherwise. -/
def objectIdOk (s : String) : Bool :=
  s.length == 24 && s.data.all isHexDigit

/-- Model of the message carried by the error the ObjectId constructor
throws on a malformed identifier string (`err.message`). -/
def objectIdThrowMsg : String :=
  "input must be a 24 character hex string"

/-- One document of the `videos.files` GridFS collection: the blob
record created by `openUploadStream(originalname, { metadata: { title },
chunkSizeBytes })`. -/
structure FileRecord where
  oid : String
  filename : String
  title : String
  length : Nat
  contentType : String
  uploadDate : Nat
  deriving Repr, DecidableEq

/-- One document of the `videos.chunks` GridFS collection. -/
structure ChunkDoc where
  filesId : String
  n : Nat
  data : List Nat
  deriving Repr, DecidableEq

/-- The GridFS bucket (`new GridFSBucket(conn.db, { bucketName:
"videos" })`): the files collection plus the chunks collection. -/
structure Bucket where
  files : List FileRecord
  chunks : List ChunkDoc
  deriving Repr, DecidableEq

/-- Operation `gridFSBucket.find({ _id: fileId }).toArray()`. -/
def Bucket.find (b : Bucket) (oid : String) : List FileRecord :=
  b.files.filter (fun f => f.oid == oid)

/-- Operation `gridFSBucket.delete(fileId)`: GridFS removes the files document and
every chunk document whose `files_id` matches. -/
def Bucket.delete (b : Bucket) (oid : String) : Bucket :=
  { files := b.files.filter (fun f => f.oid != oid)
    chunks := b.chunks.filter (fun c => c.filesId != oid) }

/-- Split a byte list into chunks of `cs` bytes (the final chunk holds
the remainder), as the GridFS upload stream does with
`chunkSizeBytes := cs`. -/
def chunkList (cs : Nat) : List Nat → List (List Nat)
  | [] => []
  | x :: xs => (x :: xs.take (cs - 1)) :: chunkList cs (xs.drop (cs - 1))
  termination_by l => l.length
  decreasing_by
    simp only [List.length_drop, List.length_cons]
    omega

/-- The chunk documents written for a buffer uploaded under a fresh
files id. -/
def mkChunks (oid : String) (buffer : List Nat) : List ChunkDoc :=
  (chunkList chunkSizeBytes buffer).enum.map
    (fun p => { filesId := oid, n := p.1, data := p.2 })

/-- A structured JSON error body: always an `error` field, optionally a
`details` field (only the replace route ever sets one). -/
structure ErrorBody where
  error : String
  details : Option String := none
  deriving Repr, DecidableEq

/-- A storage effect performed by a handler, in program order. -/
inductive Effect where
  | findOne (oid : String)
  | updateTitleE (oid : String) (title : String)
  | deleteE (oid : String)
  | uploadE (oid : String)
  deriving Repr, DecidableEq

/-- The multer in-memory file object: `req.file`. -/
structure UploadFile where
  originalname : String
  buffer : List Nat
  deriving Repr, DecidableEq

/-- JS truthiness of the multipart `title` string field: an absent field
and the empty string are falsy, every other string is truthy. -/
def titleTruthy : Option String → Bool
  | none => false
  | some t => !(t == "")

/-- Response of `GET /video/:id`: either a JSON error, or the 206
partial-content response; `ranged` carries the headers the handler sets
and the `{ start, end }` offsets passed to `openDownloadStream`. -/
inductive GetVideoRes where
  | err (status : Nat) (body : ErrorBody)
  | ranged (contentRange : String) (acceptRanges : String) (contentLength : Int)
      (contentType : String) (streamStart : Nat) (streamEnd : Int)
  deriving Repr, DecidableEq

/-- HTTP status of a `GET /video/:id` response (`res.status(206)` on the
streaming path). -/
def GetVideoRes.status : GetVideoRes → Nat
  | .err s _ => s
  | .ranged _ _ _ _ _ _ => 206

/-- Error body of a `GET /video/:id` response, when it is an error. -/
def GetVideoRes.errBody : GetVideoRes → Option ErrorBody
  | .err _ e => some e
  | .ranged _ _ _ _ _ _ => none

/-- Request to `GET /video/:id`: the `:id` path segment and the
optional `Range` header. -/
structure GetVideoReq where
  id : String
  range : Option String
  deriving Repr, DecidableEq

/-- The `GET /video/:id` handler. `new ObjectId(req.params.id)` throws
on a malformed id, landing in the catch block with a 500 before any
store access; otherwise the handler looks the record up, 404s on a miss,
400s on a missing Range header, and else computes
`start = Number(range.replace(/\D/g, ""))`,
`end = Math.min(start + CHUNK_SIZE, videoSize - 1)`,
`contentLength = end - start + 1` and answers 206. -/
def getVideo (b : Bucket) (req : GetVideoReq) : GetVideoRes × List Effect :=
  if objectIdOk req.id then
    match b.find req.id with
    | [] => (.err 404 { error := "Video not found" }, [.findOne req.id])
    | f :: _ =>
      let videoSize := f.length
      match req.range with
      | none => (.err 400 { error := "Requires Range header" }, [.findOne req.id])
      | some range =>
        let start := parseStart range
        let e : Int := min ((start : Int) + (CHUNK_SIZE : Int)) ((videoSize : Int) - 1)
        let contentLength : Int := e - (start : Int) + 1
        (.ranged ("bytes " ++ toString start ++ "-" ++ toString e ++ "/" ++ toString videoSize)
          "bytes" contentLength ("video/mp4") start e, [.findOne req.id])
  else
    (.err 500 { error := "Video not found" }, [])

/-- One element of the `GET /videos` response array. The JSON field
named `_id` is rendered here as `mongoId`. -/
structure VideoEntry where
  mongoId : String
  filename : String
  length : Nat
  contentType : String
  uploadDate : Nat
  videoUrl : String
  deriving Repr, DecidableEq

/-- The mapping the list handler applies to each files document:
`filename` is taken from `file.metadata.title`, not from the stored
`filename`. -/
def videoEntry (f : FileRecord) : VideoEntry :=
  { mongoId := f.oid
    filename := f.title
    length := f.length
    contentType := f.contentType
    uploadDate := f.uploadDate
    videoUrl := "https://video-app-backend-1.onrender.com/video/" ++ f.oid }

/-- Response of `GET /videos`. -/
inductive VideosRes where
  | err (status : Nat) (body : ErrorBody)
  | ok (entries : List VideoEntry)
  deriving Repr, DecidableEq

/-- Error body of a `GET /videos` response, when it is an error. -/
def VideosRes.errBody : VideosRes → Option ErrorBody
  | .err _ e => some e
  | .ok _ => none

/-- The `GET /videos` handler. `storeFailure` models the message of an
exception thrown by `gridFSBucket.find().toArray()` (store unreachable);
the catch block sends `res.status(500).json({ error: err.message })`.
On success an empty collection is a 404, otherwise each files document
is mapped through `videoEntry`. -/
def getVideos (b : Bucket) (storeFailure : Option String) : VideosRes :=
  match storeFailure with
  | some msg => .err 500 { error := msg }
  | none =>
    if b.files.isEmpty then .err 404 { error := "No videos found" }
    else .ok (b.files.map videoEntry)

/-- Request body of `POST /upload`: multipart `title` field and `video`
file field, either possibly absent. -/
structure UploadReq where
  title : Option String
  file : Option UploadFile
  deriving Repr, DecidableEq

/-- Response of `POST /upload`. -/
inductive UploadRes where
  | err (status : Nat) (body : ErrorBody)
  | ok (message : String) (fileId : String)
  deriving Repr, DecidableEq

/-- HTTP status of a `POST /upload` response. -/
def UploadRes.status : UploadRes → Nat
  | .err s _ => s
  | .ok _ _ => 200

/-- The `POST /upload` handler: `if (!title || !req.file)` rejects with
400 before the upload stream is ever opened; otherwise a files record
(GridFS `filename` = `req.file.originalname`, `metadata.title` = title,
no contentType passed) and its chunk documents are written under the
fresh id `newId`. -/
def postUpload (b : Bucket) (newId : String) (now : Nat) (req : UploadReq) :
    UploadRes × Bucket × List Effect :=
  if titleTruthy req.title then
    match req.file with
    | none => (.err 400 { error := "Title and video file are required!" }, b, [])
    | some f =>
      let r : FileRecord :=
        { oid := newId
          filename := f.originalname
          title := req.title.getD ("")
          length := f.buffer.length
          contentType := ""
          uploadDate := now }
      (.ok ("Video uploaded successfully!") newId,
        { files := b.files ++ [r], chunks := b.chunks ++ mkChunks newId f.buffer },
        [.uploadE newId])
  else
    (.err 400 { error := "Title and video file are required!" }, b, [])

/-- Operation `conn.db.collection("videos.files").updateOne({ _id }, { $set:
{ "metadata.title": title } })`. -/
def Bucket.updateTitle (b : Bucket) (oid t : String) : Bucket :=
  { b with files := b.files.map (fun f => if f.oid == oid then { f with title := t } else f) }

/-- Request of `PUT /video/:id`: the `:id` path segment plus optional
multipart `title` and `video` fields. -/
structure PutReq where
  id : String
  title : Option String
  file : Option UploadFile
  deriving Repr, DecidableEq

/-- Response of `PUT /video/:id`. -/
inductive PutRes where
  | err (status : Nat) (body : ErrorBody)
  | okMeta (message : String)
  | okReplaced (message : String) (fileId : String)
  deriving Repr, DecidableEq

/-- HTTP status of a `PUT /video/:id` response. -/
def PutRes.status : PutRes → Nat
  | .err s _ => s
  | .okMeta _ => 200
  | .okReplaced _ _ => 200

/-- The `PUT /video/:id` handler: malformed id throws into the catch
block (500 with `details`); unknown id is 404; a truthy title updates
`metadata.title` in place; a new file then deletes the old record and
re-uploads the buffer under the fresh id `newId` with
`title: title || file[0].metadata.title`, where `file[0]` is the record
fetched before the title update. -/
def putVideo (b : Bucket) (newId : String) (now : Nat) (req : PutReq) :
    PutRes × Bucket × List Effect :=
  if objectIdOk req.id then
    match b.find req.id with
    | [] => (.err 404 { error := "Video not found" }, b, [.findOne req.id])
    | f :: _ =>
      let b1 := if titleTruthy req.title then b.updateTitle req.id (req.title.getD ("")) else b
      let eff1 :=
        if titleTruthy req.title then
          [Effect.findOne req.id, Effect.updateTitleE req.id (req.title.getD (""))]
        else [Effect.findOne req.id]
      match req.file with
      | none => (.okMeta ("Metadata updated successfully!"), b1, eff1)
      | some uf =>
        let b2 := b1.delete req.id
        let newTitle := if titleTruthy req.title then req.title.getD ("") else f.title
        let r : FileRecord :=
          { oid := newId
            filename := uf.originalname
            title := newTitle
            length := uf.buffer.length
            contentType := ""
            uploadDate := now }
        (.okReplaced ("Video replaced successfully!") newId,
          { files := b2.files ++ [r], chunks := b2.chunks ++ mkChunks newId uf.buffer },
          eff1 ++ [Effect.deleteE req.id, Effect.uploadE newId])
  else
    (.err 500 { error := "Failed to replace video", details := some objectIdThrowMsg }, b, [])

/-- Response of `DELETE /video/:id`. -/
inductive DelRes where
  | err (status : Nat) (body : ErrorBody)
  | ok (message : String)
  deriving Repr, DecidableEq

/-- HTTP status of a `DELETE /video/:id` response. -/
def DelRes.status : DelRes → Nat
  | .err s _ => s
  | .ok _ => 200

/-- The `DELETE /video/:id` handler: malformed id throws into the catch
block (500); unknown id is 404; otherwise `gridFSBucket.delete(fileId)`
removes the files record and all its chunks. -/
def deleteVideo (b : Bucket) (id : String) : DelRes × Bucket × List Effect :=
  if objectIdOk id then
    match b.find id with
    | [] => (.err 404 { error := "Video not found" }, b, [.findOne id])
    | _ :: _ => (.ok ("Video deleted successfully"), b.delete id, [.findOne id, .deleteE id])
  else
    (.err 500 { error := "Failed to delete video" }, b, [])

/-- A well-formed 24-hex-character ObjectId used by concrete scenarios. -/
def exId : String := "507f1f77bcf86cd799439011"

/-- A second well-formed ObjectId, distinct from `exId`. -/
def exId2 : String := "507f191e810c19729de860ea"

/-- A files record of declared length `len` under `exId`. -/
def exFile (len : Nat) : FileRecord :=
  { oid := exId
    filename := "movie.mp4"
    title := "My Movie"
    length := len
    contentType := ""
    uploadDate := 0 }

/-- A bucket holding one 2,500,000-byte blob (the example from the spec
scenario). -/
def exBucket : Bucket :=
  { files := [exFile 2500000], chunks := [] }

/-- A bucket holding one 10-byte blob, for out-of-bounds range
scenarios. -/
def smallBucket : Bucket :=
  { files := [exFile 10], chunks := [{ filesId := exId, n := 0, data := [1, 2, 3] }] }

/-- Reduction of the streaming handler on its successful path: well
formed id, record found, Range header present. -/
theorem getVideo_ok (b : Bucket) (id r : String) (f : FileRecord) (fs : List FileRecord)
    (hid : objectIdOk id = true) (hfind : b.find id = f :: fs) :
    getVideo b { id := id, range := some r } =
      (GetVideoRes.ranged
        ("bytes " ++ toString (parseStart r) ++ "-"
          ++ toString (min ((parseStart r : Int) + (CHUNK_SIZE : Int)) ((f.length : Int) - 1))
          ++ "/" ++ toString f.length)
        "bytes"
        (min ((parseStart r : Int) + (CHUNK_SIZE : Int)) ((f.length : Int) - 1)
          - (parseStart r : Int) + 1)
        "video/mp4" (parseStart r)
        (min ((parseStart r : Int) + (CHUNK_SIZE : Int)) ((f.length : Int) - 1)),
       [Effect.findOne id]) := by
  simp only [getVideo, hid, if_true, hfind]

/-- Reduction of the streaming handler when the id is well formed but
no record matches: a 404 after the store lookup. -/
theorem getVideo_notFound (b : Bucket) (id : String) (r : Option String)
    (hid : objectIdOk id = true) (hfind : b.find id = []) :
    getVideo b { id := id, range := r } =
      (GetVideoRes.err 404 { error := "Video not found" }, [Effect.findOne id]) := by
  simp only [getVideo, hid, if_true, hfind]

/-- After `Bucket.delete`, a find for the deleted id is empty. -/
theorem find_delete (b : Bucket) (id : String) : (b.delete id).find id = [] := by
  unfold Bucket.find Bucket.delete
  simp only [List.filter_filter]
  apply List.filter_eq_nil_iff.mpr
  intro a _
  by_cases h : a.oid = id <;> simp [h]

/-- A files collection with a freshly appended record is never empty. -/
theorem isEmpty_append_singleton (l : List FileRecord) (r : FileRecord) :
    (l ++ [r]).isEmpty = false := by
  cases l <;> rfl

/-- C1 (counterexample): on the very example given in the spec — a 2,500,000-byte
blob and `Range: bytes=1000000-` — the served end offset is
2,000,000 and the Content-Range header is
`bytes 1000000-2000000/2500000` with declared Content-Length 1,000,001;
the claimed end `min(start + 1000000 - 1, length - 1) = 1999999` and the
claimed header `bytes 1000000-1999999/2500000` are both wrong. -/
theorem C1_counterexample :
    (getVideo exBucket { id := exId, range := some ("bytes=1000000-") }).1 =
      GetVideoRes.ranged ("bytes 1000000-2000000/2500000") "bytes" 1000001
        "video/mp4" 1000000 2000000
    ∧ (2000000 : Int) ≠ min (1000000 + 1000000 - 1) (2500000 - 1)
    ∧ "bytes 1000000-2000000/2500000" ≠ "bytes 1000000-1999999/2500000" := by
  refine ⟨by decide, by decide, by decide⟩

/-- C1 (amended): for every range GET on a found blob of declared
length `L` with parsed start `s`, the served inclusive end offset
equals `min(s + 1000000, L - 1)` — one byte past the claimed
`min(s + 1000000 - 1, L - 1)` whenever the window is not capped by the
blob end — and the declared Content-Length is `end - s + 1`, so the
declared window reaches 1,000,001 bytes. -/
theorem C1_window (b : Bucket) (id r : String) (f : FileRecord) (fs : List FileRecord)
    (hid : objectIdOk id = true) (hfind : b.find id = f :: fs) :
    (getVideo b { id := id, range := some r }).1 =
      GetVideoRes.ranged
        ("bytes " ++ toString (parseStart r) ++ "-"
          ++ toString (min ((parseStart r : Int) + 1000000) ((f.length : Int) - 1))
          ++ "/" ++ toString f.length)
        "bytes"
        (min ((parseStart r : Int) + 1000000) ((f.length : Int) - 1) - (parseStart r : Int) + 1)
        "video/mp4" (parseStart r)
        (min ((parseStart r : Int) + 1000000) ((f.length : Int) - 1)) := by
  have h := getVideo_ok b id r f fs hid hfind
  have hc : (CHUNK_SIZE : Int) = 1000000 := by decide
  rw [hc] at h
  exact congrArg Prod.fst h

/-- C1 (witness): the amended window formula instantiated on the
2,500,000-byte example blob. -/
theorem C1_window_witness :
    (getVideo exBucket { id := exId, range := some ("bytes=1000000-") }).1 =
      GetVideoRes.ranged
        ("bytes " ++ toString (parseStart ("bytes=1000000-")) ++ "-"
          ++ toString (min ((parseStart ("bytes=1000000-") : Int) + 1000000)
              (((exFile 2500000).length : Int) - 1))
          ++ "/" ++ toString (exFile 2500000).length)
        "bytes"
        (min ((parseStart ("bytes=1000000-") : Int) + 1000000)
            (((exFile 2500000).length : Int) - 1) - (parseStart ("bytes=1000000-") : Int) + 1)
        "video/mp4" (parseStart ("bytes=1000000-"))
        (min ((parseStart ("bytes=1000000-") : Int) + 1000000)
          (((exFile 2500000).length : Int) - 1)) :=
  C1_window exBucket exId ("bytes=1000000-") (exFile 2500000) [] (by decide) (by decide)

/-- C2 (counterexample): `Range: bytes=100-200` does not yield start
100: deleting every non-digit concatenates both numbers and the handler
uses start 100200; and a Range header with no numeric token
(`bytes=abc-`) is not rejected — on an existing 10-byte blob it is
answered 206, not a client error. -/
theorem C2_counterexample :
    parseStart ("bytes=100-200") = 100200
    ∧ (100200 : Nat) ≠ 100
    ∧ ((getVideo smallBucket { id := exId, range := some ("bytes=abc-") }).1).status = 206 := by
  refine ⟨by decide, by decide, by decide⟩

/-- C2 (amended): the start offset equals the decimal value of the
concatenation of all digit characters of the Range header in order
(so `bytes=100-200` yields 100200), a header with no digit characters
yields start 0, and such a digitless header is not rejected: on a found
blob the handler still answers 206. -/
theorem C2_digitConcat (b : Bucket) (id r : String) (f : FileRecord) (fs : List FileRecord)
    (hid : objectIdOk id = true) (hfind : b.find id = f :: fs)
    (hnod : r.data.filter Char.isDigit = []) :
    parseStart ("bytes=100-200") = 100200
    ∧ parseStart r = 0
    ∧ ((getVideo b { id := id, range := some r }).1).status = 206 := by
  have hz : parseStart r = 0 := by
    unfold parseStart stripNonDigits
    rw [hnod]
    rfl
  refine ⟨by decide, hz, ?_⟩
  rw [congrArg Prod.fst (getVideo_ok b id r f fs hid hfind)]
  rfl

/-- C2 (witness): the amended parsing behavior instantiated on the
10-byte blob with the digitless header `bytes=abc-`. -/
theorem C2_digitConcat_witness :
    parseStart ("bytes=100-200") = 100200
    ∧ parseStart ("bytes=abc-") = 0
    ∧ ((getVideo smallBucket { id := exId, range := some ("bytes=abc-") }).1).status = 206 :=
  C2_digitConcat smallBucket exId ("bytes=abc-") (exFile 10) [] (by decide) (by decide) (by decide)

/-- C3 (counterexample): on a 10-byte blob, `Range: bytes=100-` parses
to start 100 ≥ 10, yet the request is not rejected: the handler answers
206 with Content-Range `bytes 100-9/10` and a negative declared
Content-Length of -90. -/
theorem C3_counterexample :
    parseStart ("bytes=100-") = 100
    ∧ (10 : Nat) ≤ 100
    ∧ (getVideo smallBucket { id := exId, range := some ("bytes=100-") }).1 =
        GetVideoRes.ranged ("bytes 100-9/10") "bytes" (-90) "video/mp4" 100 9
    ∧ ((getVideo smallBucket { id := exId, range := some ("bytes=100-") }).1).status = 206 := by
  refine ⟨by decide, by decide, by decide, by decide⟩

/-- C3 (amended): a range GET on a found blob of length `L` whose
parsed start satisfies `start ≥ L` is not rejected: the handler answers
206 with served end `L - 1` and declared Content-Length `L - start`,
which is not positive. (start < 0 cannot arise: the parser keeps only
digit characters.) -/
theorem C3_oobStart (b : Bucket) (id r : String) (f : FileRecord) (fs : List FileRecord)
    (hid : objectIdOk id = true) (hfind : b.find id = f :: fs)
    (hoob : f.length ≤ parseStart r) :
    (getVideo b { id := id, range := some r }).1 =
      GetVideoRes.ranged
        ("bytes " ++ toString (parseStart r) ++ "-" ++ toString ((f.length : Int) - 1)
          ++ "/" ++ toString f.length)
        "bytes" ((f.length : Int) - (parseStart r : Int)) "video/mp4" (parseStart r)
        ((f.length : Int) - 1)
    ∧ (f.length : Int) - (parseStart r : Int) ≤ 0 := by
  have h1 : (f.length : Int) ≤ (parseStart r : Int) := by exact_mod_cast hoob
  have h2 : (0 : Int) ≤ (CHUNK_SIZE : Int) := by decide
  have hmin : min ((parseStart r : Int) + (CHUNK_SIZE : Int)) ((f.length : Int) - 1)
      = (f.length : Int) - 1 := min_eq_right (by omega)
  have h := congrArg Prod.fst (getVideo_ok b id r f fs hid hfind)
  rw [hmin] at h
  have e1 : ((f.length : Int) - 1 - (parseStart r : Int) + 1)
      = (f.length : Int) - (parseStart r : Int) := by omega
  constructor
  · rw [h, e1]
  · omega

/-- C3 (witness): the out-of-bounds behavior instantiated on the
10-byte blob with `Range: bytes=100-`. -/
theorem C3_oobStart_witness :
    ((getVideo smallBucket { id := exId, range := some ("bytes=100-") }).1 =
      GetVideoRes.ranged
        ("bytes " ++ toString (parseStart ("bytes=100-")) ++ "-"
          ++ toString (((exFile 10).length : Int) - 1) ++ "/" ++ toString (exFile 10).length)
        "bytes" (((exFile 10).length : Int) - (parseStart ("bytes=100-") : Int)) "video/mp4"
        (parseStart ("bytes=100-")) (((exFile 10).length : Int) - 1))
    ∧ ((exFile 10).length : Int) - (parseStart ("bytes=100-") : Int) ≤ 0 :=
  C3_oobStart smallBucket exId ("bytes=100-") (exFile 10) [] (by decide) (by decide) (by decide)

/-- C4 (counterexample): a GET on an existing blob with no Range header
is answered 400, but only after the handler has queried the store for
the blob record: the effect trace is `[findOne exId]`, not empty, so
the validation error is not detected before storage interaction. -/
theorem C4_counterexample :
    getVideo exBucket { id := exId, range := none } =
      (GetVideoRes.err 400 { error := "Requires Range header" }, [Effect.findOne exId])
    ∧ [Effect.findOne exId] ≠ ([] : List Effect) := by
  refine ⟨by decide, by decide⟩

/-- C4 (amended): the upload handler detects its validation errors
(falsy title or missing file) before any storage interaction — it
returns 400 with an empty effect trace and an unchanged bucket — but
the streaming handler queries the store for the blob record first and
only then checks the Range header, so a missing-Range request on an
existing id is answered 400 only after the store lookup. -/
theorem C4_validationOrder (b : Bucket) (newId : String) (now : Nat) (req : UploadReq)
    (b2 : Bucket) (id : String) (f : FileRecord) (fs : List FileRecord)
    (hval : titleTruthy req.title = false ∨ req.file = none)
    (hid : objectIdOk id = true) (hfind : b2.find id = f :: fs) :
    postUpload b newId now req
      = (UploadRes.err 400 { error := "Title and video file are required!" }, b, [])
    ∧ getVideo b2 { id := id, range := none }
      = (GetVideoRes.err 400 { error := "Requires Range header" }, [Effect.findOne id]) := by
  constructor
  · rcases hval with hv | hv
    · simp [postUpload, hv]
    · unfold postUpload
      rw [hv]
      by_cases ht : titleTruthy req.title <;> simp [ht]
  · simp only [getVideo, hid, if_true, hfind]

/-- C4 (witness): the ordering facts instantiated on a titleless upload
request and a missing-Range GET against the example bucket. -/
theorem C4_validationOrder_witness :
    postUpload exBucket exId2 0 { title := none, file := none }
      = (UploadRes.err 400 { error := "Title and video file are required!" }, exBucket, [])
    ∧ getVideo exBucket { id := exId, range := none }
      = (GetVideoRes.err 400 { error := "Requires Range header" }, [Effect.findOne exId]) :=
  C4_validationOrder exBucket exId2 0 { title := none, file := none } exBucket exId
    (exFile 2500000) [] (Or.inl (by decide)) (by decide) (by decide)

/-- C5 (counterexample): the `GET /videos` failure path does expose an
internal error message — the catch block sends
`{ error: err.message }`, so the message of the storage exception
appears verbatim as the `error` field of the 500 body. -/
theorem C5_counterexample :
    getVideos exBucket (some ("connect ECONNREFUSED 127.0.0.1:27017")) =
      VideosRes.err 500 { error := "connect ECONNREFUSED 127.0.0.1:27017", details := none } := by
  decide

/-- C5 (amended): every error response carries a structured body with
an `error` field, and error messages of the streaming endpoint come from
a fixed set of literals with no `details`; but besides the optional
`details` on replace failures, the `GET /videos` failure path exposes
the internal error message verbatim as its `error` field. -/
theorem C5_errorBodies (b : Bucket) (msg : String) (req : GetVideoReq) (e : ErrorBody)
    (h : ((getVideo b req).1).errBody = some e) :
    getVideos b (some msg) = VideosRes.err 500 { error := msg, details := none }
    ∧ (e.error = "Video not found" ∨ e.error = "Requires Range header")
    ∧ e.details = none := by
  refine ⟨rfl, ?_⟩
  unfold getVideo at h
  split at h
  · split at h
    · simp only [GetVideoRes.errBody, Option.some.injEq] at h
      rw [← h]
      exact ⟨Or.inl rfl, rfl⟩
    · split at h
      · simp only [GetVideoRes.errBody, Option.some.injEq] at h
        rw [← h]
        exact ⟨Or.inr rfl, rfl⟩
      · exact absurd h (by simp [GetVideoRes.errBody])
  · simp only [GetVideoRes.errBody, Option.some.injEq] at h
    rw [← h]
    exact ⟨Or.inl rfl, rfl⟩

/-- C5 (witness): the error-body shape instantiated on a `GET /videos`
store failure and a streaming 404 body. -/
theorem C5_errorBodies_witness :
    getVideos exBucket (some ("boom")) = VideosRes.err 500 { error := "boom", details := none }
    ∧ (({ error := "Video not found", details := none } : ErrorBody).error = "Video not found"
      ∨ ({ error := "Video not found", details := none } : ErrorBody).error
          = "Requires Range header")
    ∧ ({ error := "Video not found", details := none } : ErrorBody).details = none :=
  C5_errorBodies exBucket ("boom") { id := exId2, range := some ("bytes=0-") }
    { error := "Video not found", details := none } (by decide)

/-- A bucket with no files and no chunks. -/
def emptyBucket : Bucket :=
  { files := [], chunks := [] }

/-- C6: on a content-replacing PUT against a found record, the
replacement record appended to the files collection carries the newly
supplied title when a (non-empty) one is given in the same call —
regardless of whether content is also being replaced — and otherwise
carries the title of the prior record (`title || file[0].metadata.title`). -/
theorem C6_titleWins (b : Bucket) (newId : String) (now : Nat) (id : String)
    (f : FileRecord) (fs : List FileRecord) (uf : UploadFile) (topt : Option String)
    (hid : objectIdOk id = true) (hfind : b.find id = f :: fs) :
    (∀ t, topt = some t → t ≠ "" →
      (((putVideo b newId now { id := id, title := topt, file := some uf }).2.1.files.getLast?).map
        FileRecord.title) = some t)
    ∧ (topt = none →
      (((putVideo b newId now { id := id, title := topt, file := some uf }).2.1.files.getLast?).map
        FileRecord.title) = some f.title) := by
  constructor
  · intro t ht hne
    subst ht
    have htt : titleTruthy (some t) = true := by
      simp [titleTruthy, hne]
    simp [putVideo, hid, hfind, htt, List.getLast?_concat]
  · intro ht
    subst ht
    simp [putVideo, hid, hfind, titleTruthy, List.getLast?_concat]

/-- C6 (witness): the title semantics instantiated on the 10-byte blob,
once with a fresh title and once without one. -/
theorem C6_titleWins_witness :
    (((putVideo smallBucket exId2 7
        { id := exId, title := some ("New Title"),
          file := some { originalname := "new.mp4", buffer := [9, 9] } }).2.1.files.getLast?).map
      FileRecord.title) = some ("New Title")
    ∧ (((putVideo smallBucket exId2 7
        { id := exId, title := none,
          file := some { originalname := "new.mp4", buffer := [9, 9] } }).2.1.files.getLast?).map
      FileRecord.title) = some (exFile 10).title := by
  refine ⟨?_, ?_⟩
  · exact (C6_titleWins smallBucket exId2 7 exId (exFile 10) []
      { originalname := "new.mp4", buffer := [9, 9] } (some ("New Title"))
      (by decide) (by decide)).1 "New Title" rfl (by decide)
  · exact (C6_titleWins smallBucket exId2 7 exId (exFile 10) []
      { originalname := "new.mp4", buffer := [9, 9] } none
      (by decide) (by decide)).2 rfl

/-- C7: DELETE on an id with no live record answers 404 and leaves the
bucket alone; DELETE on a found record succeeds and removes the files
record together with every chunk it owns, so a subsequent `find` for
that id is empty and a subsequent range GET for it answers 404. -/
theorem C7_deleteSemantics (b b2 : Bucket) (id : String) (f : FileRecord)
    (fs : List FileRecord) (r : Option String)
    (hid : objectIdOk id = true) (habsent : b2.find id = []) (hfind : b.find id = f :: fs) :
    (deleteVideo b2 id).1 = DelRes.err 404 { error := "Video not found" }
    ∧ (deleteVideo b id).1 = DelRes.ok ("Video deleted successfully")
    ∧ (deleteVideo b id).2.1.find id = []
    ∧ (∀ c ∈ (deleteVideo b id).2.1.chunks, c.filesId ≠ id)
    ∧ (getVideo (deleteVideo b id).2.1 { id := id, range := r }).1 =
        GetVideoRes.err 404 { error := "Video not found" } := by
  have hdel : (deleteVideo b id).2.1 = b.delete id := by
    simp [deleteVideo, hid, hfind]
  refine ⟨?_, ?_, ?_, ?_, ?_⟩
  · simp [deleteVideo, hid, habsent]
  · simp [deleteVideo, hid, hfind]
  · rw [hdel]
    exact find_delete b id
  · rw [hdel]
    intro c hc
    unfold Bucket.delete at hc
    have hm := List.mem_filter.mp hc
    simpa using hm.2
  · rw [hdel]
    exact congrArg Prod.fst (getVideo_notFound (b.delete id) id r hid (find_delete b id))

/-- C7 (witness): delete semantics instantiated on the empty bucket
(404) and on the 10-byte blob (successful removal and not-found
reads). -/
theorem C7_deleteSemantics_witness :
    (deleteVideo emptyBucket exId).1 = DelRes.err 404 { error := "Video not found" }
    ∧ (deleteVideo smallBucket exId).1 = DelRes.ok ("Video deleted successfully")
    ∧ (deleteVideo smallBucket exId).2.1.find exId = []
    ∧ (getVideo (deleteVideo smallBucket exId).2.1 { id := exId, range := some ("bytes=0-") }).1 =
        GetVideoRes.err 404 { error := "Video not found" } := by
  have h := C7_deleteSemantics smallBucket emptyBucket exId (exFile 10) [] (some ("bytes=0-"))
    (by decide) (by decide) (by decide)
  exact ⟨h.1, h.2.1, h.2.2.1, h.2.2.2.2⟩

/-- C8: a GET on a found blob with no Range header is answered 400 with
the `Requires Range header` error body — in particular its status is
400, never a full-content 200. -/
theorem C8_missingRange (b : Bucket) (id : String) (f : FileRecord) (fs : List FileRecord)
    (hid : objectIdOk id = true) (hfind : b.find id = f :: fs) :
    (getVideo b { id := id, range := none }).1 =
      GetVideoRes.err 400 { error := "Requires Range header" }
    ∧ ((getVideo b { id := id, range := none }).1).status = 400
    ∧ ((getVideo b { id := id, range := none }).1).status ≠ 200 := by
  have h : (getVideo b { id := id, range := none }).1 =
      GetVideoRes.err 400 { error := "Requires Range header" } := by
    simp only [getVideo, hid, if_true, hfind]
  refine ⟨h, ?_, ?_⟩ <;> rw [h] <;> decide

/-- C8 (witness): the missing-Range rejection instantiated on the
example bucket. -/
theorem C8_missingRange_witness :
    (getVideo exBucket { id := exId, range := none }).1 =
      GetVideoRes.err 400 { error := "Requires Range header" }
    ∧ ((getVideo exBucket { id := exId, range := none }).1).status = 400
    ∧ ((getVideo exBucket { id := exId, range := none }).1).status ≠ 200 :=
  C8_missingRange exBucket exId (exFile 2500000) [] (by decide) (by decide)

/-- C9: on every `/video/:id` route, an `:id` segment that is not a
well-formed ObjectId string makes the identifier constructor throw
before the existence check runs: the GET, PUT and DELETE handlers all
answer 500 — not 404 — with an empty effect trace and an unchanged
bucket. -/
theorem C9_badId (b : Bucket) (newId : String) (now : Nat) (id : String)
    (topt : Option String) (uf : Option UploadFile) (r : Option String)
    (hbad : objectIdOk id = false) :
    getVideo b { id := id, range := r }
      = (GetVideoRes.err 500 { error := "Video not found" }, [])
    ∧ putVideo b newId now { id := id, title := topt, file := uf }
      = (PutRes.err 500
          { error := "Failed to replace video",
            details := some objectIdThrowMsg }, b, [])
    ∧ deleteVideo b id = (DelRes.err 500 { error := "Failed to delete video" }, b, [])
    ∧ (500 : Nat) ≠ 404 := by
  refine ⟨?_, ?_, ?_, by decide⟩ <;> simp [getVideo, putVideo, deleteVideo, hbad]

/-- C9 (witness): the malformed-id behavior instantiated on the id
string `not-an-objectid`. -/
theorem C9_badId_witness :
    getVideo exBucket { id := "not-an-objectid", range := some ("bytes=0-") }
      = (GetVideoRes.err 500 { error := "Video not found" }, [])
    ∧ putVideo exBucket exId2 0 { id := "not-an-objectid", title := none, file := none }
      = (PutRes.err 500
          { error := "Failed to replace video",
            details := some objectIdThrowMsg }, exBucket, [])
    ∧ deleteVideo exBucket ("not-an-objectid")
      = (DelRes.err 500 { error := "Failed to delete video" }, exBucket, [])
    ∧ (500 : Nat) ≠ 404 :=
  C9_badId exBucket exId2 0 ("not-an-objectid") none none (some ("bytes=0-")) (by decide)

/-- C10: an upload stores the original filename as the record field
`filename` and the user title under `metadata.title`; the `GET /videos`
entry for that record reports `filename` equal to the title, not the
stored original filename. -/
theorem C10_listTitle (b : Bucket) (newId : String) (now : Nat) (t : String) (uf : UploadFile)
    (ht : t ≠ "") :
    (((postUpload b newId now { title := some t, file := some uf }).2.1.files.getLast?).map
      FileRecord.filename) = some uf.originalname
    ∧ (∃ es, getVideos (postUpload b newId now { title := some t, file := some uf }).2.1 none
        = VideosRes.ok es
      ∧ es.getLast? = some
          { mongoId := newId, filename := t, length := uf.buffer.length, contentType := "",
            uploadDate := now,
            videoUrl := "https://video-app-backend-1.onrender.com/video/" ++ newId }) := by
  have htt : titleTruthy (some t) = true := by
    simp [titleTruthy, ht]
  constructor
  · simp [postUpload, htt, List.getLast?_concat]
  · refine ⟨((postUpload b newId now { title := some t, file := some uf }).2.1.files.map
      videoEntry), ?_, ?_⟩
    · simp [getVideos, postUpload, htt, isEmpty_append_singleton]
    · simp [postUpload, htt, List.getLast?_concat, videoEntry]

/-- C10 (witness): the listing behavior instantiated on an upload of
`raw.mp4` with title `Trip`, starting from the empty bucket. -/
theorem C10_listTitle_witness :
    (((postUpload emptyBucket exId2 5
        { title := some ("Trip"),
          file := some { originalname := "raw.mp4", buffer := [1, 2, 3] } }).2.1.files.getLast?).map
      FileRecord.filename) = some ("raw.mp4")
    ∧ (∃ es, getVideos (postUpload emptyBucket exId2 5
          { title := some ("Trip"),
            file := some { originalname := "raw.mp4", buffer := [1, 2, 3] } }).2.1 none
        = VideosRes.ok es
      ∧ es.getLast? = some
          { mongoId := exId2, filename := "Trip", length := 3, contentType := "",
            uploadDate := 5,
            videoUrl := "https://video-app-backend-1.onrender.com/video/" ++ exId2 }) :=
  C10_listTitle emptyBucket exId2 5 "Trip" { originalname := "raw.mp4", buffer := [1, 2, 3] }
    (by decide)

end VideoApp
